import Mathlib

/-!
# Verification of the EMR-Adapter core

Shallow embedding of the EMR-Adapter repository (TypeScript) in Lean 4:
the session/cookie state (`src/transport/session-manager.ts`), the retry
policy (`src/transport/retry-handler.ts`), the WellSky adapter
(`src/adapters/wellsky-adapter.ts`), and the orchestration service
(`src/services/visit-note-service.ts`).

JavaScript runtime conventions used throughout the embedding:
* machine strings are Lean `String`s; `String(x)` on a string is the identity;
* a JS `Map` is an association list in insertion order, where `set` on an
  existing key replaces the value in place and keeps the position;
* object spread `{...a, ...b}` is the same in-place-overwrite merge;
* `Date` values are carried as epoch milliseconds (`Int`); `toISOString`
  followed by `new Date(...)` preserves the instant, so serialization of a
  timestamp is modelled as the identity on the carried value;
* a thrown value is either a plain `Error` (just a message) or an
  `EMRAdapterError`; neither class defines a `status` property.
-/

set_option maxRecDepth 4000

namespace EMRAdapter

/-! ## JS string helpers (`String.prototype.includes`) -/

/-- Does `pat` occur at the head of `s` (case-sensitive)? -/
def subAt : List Char → List Char → Bool
  | [], _ => true
  | _ :: _, [] => false
  | p :: ps, c :: cs => p == c && subAt ps cs

/-- Does `pat` occur anywhere in `s` (case-sensitive)? -/
def hasSubChars (pat : List Char) : List Char → Bool
  | [] => subAt pat []
  | c :: cs => subAt pat (c :: cs) || hasSubChars pat cs

/-- JS `s.includes(pat)`. -/
def jsIncludes (s pat : String) : Bool := hasSubChars pat.data s.data

/-! ## The CSRF-token scanner

`extractCSRFToken` in `wellsky-adapter.ts` tries three regexes in order:

1. `/<input[^>]*name=["']csrfmiddlewaretoken["'][^>]*value=["']([^"']+)["']/i`
2. `/<input[^>]*name=["']csrf[_-]?token["'][^>]*value=["']([^"']+)["']/i`
3. `/<meta[^>]*name=["']csrf[_-]?token["'][^>]*content=["']([^"']+)["']/i`

The regexes are modelled as literal scanners: `ciPre` is a case-insensitive
literal (the `/i` flag), `inTag` is `[^>]*` (advance over non-`>` characters
until the rest of the pattern matches), `quoteQ` is `["']`, `grabVal` is
`([^"']+)["']` (a non-empty capture closed by a quote), and the `[_-]?`
alternation is expanded into the three literal field names. -/

/-- Match a literal pattern case-insensitively at the head, returning the rest. -/
def ciPre : List Char → List Char → Option (List Char)
  | [], s => some s
  | _ :: _, [] => none
  | p :: ps, c :: cs => if p.toLower = c.toLower then ciPre ps cs else none

/-- The character class `["']`. -/
def quoteQ (c : Char) : Bool := c == '"' || c == Char.ofNat 39

/-- `[^>]*m`: try `m` at each position without crossing a `>`. -/
def inTag {α : Type} (m : List Char → Option α) : List Char → Option α
  | [] => none
  | c :: cs =>
    match m (c :: cs) with
    | some r => some r
    | none => if c == '>' then none else inTag m cs

/-- `["']alt["']`: a quoted occurrence of the literal `alt`, returning the rest. -/
def quotedAlt (alt : List Char) : List Char → Option (List Char)
  | [] => none
  | c :: cs =>
    if quoteQ c then
      match ciPre alt cs with
      | some (q :: rest) => if quoteQ q then some rest else none
      | _ => none
    else none

/-- `name=["'](alt1|alt2|...)["']`, returning the rest of the input. -/
def nameTok (alts : List String) (s : List Char) : Option (List Char) :=
  match ciPre "name=".data s with
  | some rest => alts.findSome? (fun a => quotedAlt a.data rest)
  | none => none

/-- `([^"']+)["']`: capture one-or-more non-quote characters closed by a quote. -/
def grabVal (acc : List Char) : List Char → Option String
  | [] => none
  | c :: cs =>
    if quoteQ c then (if acc.isEmpty then none else some (String.mk acc.reverse))
    else grabVal (c :: acc) cs

/-- `attr["']([^"']+)["']` (with `attr` such as `value=`), returning the capture. -/
def valueTok (attr : String) (s : List Char) : Option String :=
  match ciPre attr.data s with
  | some (q :: rest) => if quoteQ q then grabVal [] rest else none
  | _ => none

/-- One full tag pattern `tag[^>]*name=["']alt["'][^>]*attr["']([^"']+)["']`
tried at the current position. -/
def tagScanAt (tag : String) (alts : List String) (vattr : String)
    (s : List Char) : Option String :=
  match ciPre tag.data s with
  | none => none
  | some r1 =>
    match inTag (nameTok alts) r1 with
    | none => none
    | some r2 => inTag (valueTok vattr) r2

/-- Leftmost match of the tag pattern anywhere in the input. -/
def scanAll (tag : String) (alts : List String) (vattr : String) :
    List Char → Option String
  | [] => none
  | c :: cs =>
    match tagScanAt tag alts vattr (c :: cs) with
    | some v => some v
    | none => scanAll tag alts vattr cs

/-- A parsed HTTP response body: raw text, or a structured (JSON) object of
which the code only ever reads `success` and `errors`. -/
inductive JsBody where
  | str (s : String)
  | obj (success : Option Bool) (errors : Option (List String))
deriving Repr, DecidableEq

/-- `extractCSRFToken` (wellsky-adapter.ts): `null` for non-string or empty
input, else the three regex fallbacks in order. -/
def extractCSRFToken (body : JsBody) : Option String :=
  match body with
  | .obj _ _ => none
  | .str h =>
    if h = "" then none
    else
      match scanAll "<input" ["csrfmiddlewaretoken"] "value=" h.data with
      | some v => some v
      | none =>
        match scanAll "<input" ["csrf_token", "csrf-token", "csrftoken"] "value=" h.data with
        | some v => some v
        | none => scanAll "<meta" ["csrf_token", "csrf-token", "csrftoken"] "content=" h.data

/-! ## Core data types (`src/types/index.ts`, `src/models/canonical.ts`) -/

/-- `ErrorType` enum. -/
inductive ErrorType where
  | Authentication
  | Network
  | Validation
  | EMRSpecific
deriving Repr, DecidableEq

/-- `EMRType` enum. -/
inductive EMRType where
  | WellSky
  | AxisCare
  | AlayaCare
deriving Repr, DecidableEq

/-- A JS `Date` as read by `transform`'s `formatDate`: `getFullYear`,
0-based `getMonth`, `getDate`. -/
structure JsDate where
  year : Nat
  month0 : Nat
  day : Nat
deriving Repr, DecidableEq

/-- The part of the open `metadata` map (`Record<string, any>`) that the
code reads: the `shift` and `tags` keys. -/
structure Meta where
  shift : Option String := none
  tags : Option String := none
deriving Repr, DecidableEq

/-- Canonical `VisitNote` (`src/models/canonical.ts`). String fields use
`""` for the JS-falsy empty-or-absent value; `visitDate` is `none` when the
runtime record carries no date (the TS type requires one, but the service
validates its presence, so runtime absence is representable). -/
structure VisitNote where
  visitId : String
  patientId : String
  caregiverId : String
  visitDate : Option JsDate
  startTime : String := ""
  endTime : String := ""
  note : String
  metadata : Option Meta := none
deriving Repr, DecidableEq

/-- `WellSkyVisitNoteRequest` (wellsky-adapter.ts form fields). -/
structure WellSkyVisitNoteRequest where
  carelog : String
  shift : String
  unavailability : String
  date : String
  tags : String
  note : String
  show_with_billing : String
  show_with_payroll : String
  csrfmiddlewaretoken : Option String := none
deriving Repr, DecidableEq

/-- `Session` (`src/types/index.ts`): cookie strings, named tokens, optional
expiry instant (epoch milliseconds). Tokens are a JS object, modelled as an
association list in insertion order. -/
structure Session where
  cookies : List String
  tokens : List (String × String)
  expiresAt : Option Int := none
deriving Repr, DecidableEq

/-- An HTTP response as `HTTPClient.request` returns it. `cookies` is the
already-reduced `name=value` list (the `|| []` defaults in callers are
absorbed by making the list total). -/
structure HTTPResp where
  status : Nat
  statusText : String := ""
  headers : List (String × String) := []
  body : JsBody := .str ""
  cookies : List String := []
deriving Repr, DecidableEq

/-- The shapes that appear as `originalError` of an `EMRAdapterError` in this
codebase: a whole response, the `{schedulingStatus, dashboardStatus}` pair of
the expiry probe, the detailed 403 diagnostic object, or a wrapped plain
error message. -/
inductive ErrInfo where
  | resp (r : HTTPResp)
  | statusPair (schedulingStatus dashboardStatus : Nat)
  | forbidden (status : Nat) (statusText : String) (headers : List (String × String))
      (bodyPreview : String) (requestData : WellSkyVisitNoteRequest) (csrfPresent : String)
  | js (message : String)
deriving Repr, DecidableEq

/-- `EMRAdapterError`: message, kind tag, vendor tag, original cause. The
class defines no `status` property. -/
structure EMRAdapterError where
  message : String
  type : ErrorType
  emrType : EMRType
  originalError : Option ErrInfo := none
deriving Repr, DecidableEq

/-- A thrown JS value in this codebase: a plain `Error` or an
`EMRAdapterError`. -/
inductive Thrown where
  | jsError (message : String)
  | adapterError (e : EMRAdapterError)
deriving Repr, DecidableEq

/-- `error?.message` (both `Error` and `EMRAdapterError` carry one). -/
def Thrown.msg : Thrown → String
  | .jsError m => m
  | .adapterError e => e.message

/-- `error?.status`: neither `Error` nor `EMRAdapterError` defines a `status`
field, so the property access is always `undefined`. -/
def Thrown.statusProp : Thrown → Option Nat
  | _ => none

/-- `PostResult`: the timestamp is the `new Date()` instant, threaded in as
`now`. -/
structure PostResult where
  success : Bool
  visitId : String
  timestamp : Int
  request : Option WellSkyVisitNoteRequest := none
  response : Option JsBody := none
  error : Option String := none
deriving Repr, DecidableEq

instance {ε α : Type} [DecidableEq ε] [DecidableEq α] : DecidableEq (Except ε α) := fun x y =>
  match x, y with
  | .ok a, .ok b =>
    if h : a = b then .isTrue (by rw [h]) else .isFalse (by intro hc; cases hc; exact h rfl)
  | .ok _, .error _ => .isFalse (by intro hc; cases hc)
  | .error _, .ok _ => .isFalse (by intro hc; cases hc)
  | .error e, .error f =>
    if h : e = f then .isTrue (by rw [h]) else .isFalse (by intro hc; cases hc; exact h rfl)

/-! ## SessionManager (`src/transport/session-manager.ts`)

The manager's mutable state is its `session: Session | null` field, modelled
as an explicit `Option Session` threaded through the operations. -/

/-- `cookie.split('=')[0]`: the text before the first `=` (the whole string
when there is no `=`). -/
def cookieName (c : String) : String := String.mk (c.data.takeWhile (fun ch => ch ≠ '='))

/-- JS `Map.set`: replace in place when the key is present (keeping its
position), else append. -/
def mapSet (m : List (String × String)) (k v : String) : List (String × String) :=
  if m.any (fun p => p.1 == k) then m.map (fun p => if p.1 == k then (k, v) else p)
  else m ++ [(k, v)]

/-- JS `Map.get` / object property read on an association list. -/
def recGet (m : List (String × String)) (k : String) : Option String :=
  match m with
  | [] => none
  | p :: rest => if p.1 == k then some p.2 else recGet rest k

/-- The `forEach` loops of `updateCookies`: add each cookie under its parsed
name, skipping entries whose name is empty (`if (name)`). -/
def cookieMapAdd : List (String × String) → List String → List (String × String)
  | m, [] => m
  | m, c :: cs =>
    cookieMapAdd (if cookieName c = "" then m else mapSet m (cookieName c) c) cs

/-- `updateCookies`: with an existing session, rebuild the name→cookie map
from the current cookies, overwrite with the incoming ones, and store the
map's values; with no session, store the incoming list verbatim with an
empty token map. -/
def updateCookies (s : Option Session) (cookies : List String) : Option Session :=
  match s with
  | some se =>
    some { se with cookies := (cookieMapAdd (cookieMapAdd [] se.cookies) cookies).map Prod.snd }
  | none => some { cookies := cookies, tokens := [] }

/-- `updateTokens`: spread-merge incoming tokens over existing ones, or
create a session with empty cookies. -/
def updateTokens (s : Option Session) (tokens : List (String × String)) : Option Session :=
  match s with
  | some se => some { se with tokens := tokens.foldl (fun m p => mapSet m p.1 p.2) se.tokens }
  | none => some { cookies := [], tokens := tokens }

/-- `getCookies`: `session?.cookies || []`. -/
def getCookies (s : Option Session) : List String :=
  match s with
  | some se => se.cookies
  | none => []

/-- `getTokens`: `session?.tokens || {}`. -/
def getTokens (s : Option Session) : List (String × String) :=
  match s with
  | some se => se.tokens
  | none => []

/-- `isExpiredForSession` at instant `now`: never expired without an expiry;
otherwise expired once `now` reaches the stored instant (`new Date() >=
expiresAt`). -/
def isExpiredForSessionAt (now : Int) (s : Session) : Bool :=
  match s.expiresAt with
  | none => false
  | some t => decide (t ≤ now)

/-- `isExpired` of the manager: `false` when there is no session (or no
expiry), else the per-session check. -/
def managerIsExpired (now : Int) (s : Option Session) : Bool :=
  match s with
  | none => false
  | some se => isExpiredForSessionAt now se

/-- The persisted shape `{cookies, tokens, expiresAt?}` written by
`saveSession`. The `expiresAt` ISO string is carried as the instant it
denotes (`toISOString`/`new Date` round-trips the instant). -/
structure SavedData where
  cookies : List String
  tokens : List (String × String)
  expiresAt : Option Int := none
deriving Repr, DecidableEq

/-- What the session file can hold: missing file, content `JSON.parse`
rejects, or a well-formed record. -/
inductive FileContent where
  | absent
  | malformed
  | wellFormed (d : SavedData)
deriving Repr, DecidableEq

/-- `saveSession`: serialize the session (timestamps to ISO text). -/
def saveSession (s : Session) : SavedData :=
  { cookies := s.cookies, tokens := s.tokens, expiresAt := s.expiresAt }

/-- `loadSession` at instant `now`: `null` for a missing or unparsable file;
otherwise rebuild the session and return `null` when it is already
expired. -/
def loadSession (now : Int) (f : FileContent) : Option Session :=
  match f with
  | .absent => none
  | .malformed => none
  | .wellFormed d =>
    let s : Session := { cookies := d.cookies, tokens := d.tokens, expiresAt := d.expiresAt }
    if isExpiredForSessionAt now s then none else some s

/-! ## RetryHandler (`src/transport/retry-handler.ts`)

`execute` is a `while (attempt < maxAttempts)` loop. It is embedded with a
fuel parameter that starts at `maxAttempts` and equals
`maxAttempts - attempt` on entry to each iteration, so fuel `0` is exactly
the loop exit followed by `throw lastError`. The trace records how many
times the operation was invoked and every backoff sleep performed. -/

/-- `RetryConfig`. -/
structure RetryConfig where
  maxAttempts : Nat
  backoffMs : Nat
  retryableErrors : List String
deriving Repr, DecidableEq

/-- What `execute` can do: return, re-raise a thrown value, or re-raise the
`undefined` `lastError` (only reachable with `maxAttempts = 0`). -/
inductive ExecOutcome (α : Type) where
  | ok (a : α)
  | threw (e : Thrown)
  | threwUndefined
deriving Repr, DecidableEq

/-- Result of `execute` plus its observable effects: the number of
invocations of the operation and the list of backoff sleeps (ms). -/
structure ExecTrace (α : Type) where
  outcome : ExecOutcome α
  calls : Nat
  sleeps : List Nat
deriving Repr, DecidableEq

/-- The retry loop body; `k` is the current `attempt` counter (invocations
so far), `op k` the outcome of the `k`-th invocation (0-based). -/
def executeAux {α : Type} (cfg : RetryConfig) (op : Nat → Except Thrown α)
    (pred : Option (Thrown → Bool)) :
    Nat → Nat → List Nat → Option Thrown → ExecTrace α
  | 0, k, sleeps, lastErr =>
    ⟨match lastErr with | some e => .threw e | none => .threwUndefined, k, sleeps⟩
  | fuel + 1, k, sleeps, _ =>
    match op k with
    | .ok a => ⟨.ok a, k + 1, sleeps⟩
    | .error e =>
      let attempt := k + 1
      if cfg.maxAttempts ≤ attempt then ⟨.threw e, attempt, sleeps⟩
      else if (match pred with | some p => !p e | none => false) then ⟨.threw e, attempt, sleeps⟩
      else
        let shouldRetry := cfg.retryableErrors.any (fun pat => jsIncludes (Thrown.msg e) pat)
        if !shouldRetry && pred.isNone then ⟨.threw e, attempt, sleeps⟩
        else
          executeAux cfg op pred fuel attempt
            (sleeps ++ [cfg.backoffMs * 2 ^ (attempt - 1)]) (some e)

/-- `RetryHandler.execute(fn, isRetryableError?)`. -/
def execute {α : Type} (cfg : RetryConfig) (op : Nat → Except Thrown α)
    (pred : Option (Thrown → Bool)) : ExecTrace α :=
  executeAux cfg op pred cfg.maxAttempts 0 [] none

/-- `RetryHandler.isNetworkError`. -/
def isNetworkError (e : Thrown) : Bool :=
  jsIncludes e.msg "timeout" || jsIncludes e.msg "network" ||
    jsIncludes e.msg "ECONNREFUSED" || jsIncludes e.msg "ENOTFOUND"

/-- `RetryHandler.isServerError`. -/
def isServerError (status : Nat) : Bool := 500 ≤ status && status < 600

/-- `RetryHandler.isAuthError`. -/
def isAuthError (status : Nat) : Bool := status == 401 || status == 403

/-! ## BaseAdapter (`src/adapters/base-adapter.ts`) -/

/-- The retry configuration every adapter is constructed with. -/
def baseRetryConfig : RetryConfig :=
  { maxAttempts := 3, backoffMs := 1000, retryableErrors := ["timeout", "network", "ECONNREFUSED"] }

/-- The predicate `handleRetry` passes to `execute`: network errors, and
errors whose (nonexistent) `status` property is a 5xx, are retryable. -/
def defaultIsRetryable (e : Thrown) : Bool :=
  isNetworkError e ||
    (match Thrown.statusProp e with
     | some s => isServerError s
     | none => false)

/-- `isAuthenticated`: a session exists and is not expired. -/
def isAuthenticatedAt (now : Int) (s : Option Session) : Bool :=
  s.isSome && !managerIsExpired now s

/-! ## WellSkyAdapter (`src/adapters/wellsky-adapter.ts`) -/

/-- `padStart(2, '0')` on a decimal rendering. -/
def pad2 (n : Nat) : String :=
  let s := toString n
  if s.length < 2 then "0" ++ s else s

/-- `formatDate`: `MM/DD/YYYY` with `getMonth() + 1`. -/
def formatDate (d : JsDate) : String :=
  pad2 (d.month0 + 1) ++ "/" ++ pad2 d.day ++ "/" ++ toString d.year

/-- `(note.metadata as any)?.shift`. -/
def metaShift (m : Option Meta) : Option String := m.bind Meta.shift

/-- `note.metadata?.tags`. -/
def metaTags (m : Option Meta) : Option String := m.bind Meta.tags

/-- `transform`: pure mapping from the canonical record to WellSky form
fields. `none` models the JS `TypeError` that `formatDate` would raise on a
record whose `visitDate` is absent at runtime; `x || y` falls back on the
JS-falsy empty string. -/
def transform (n : VisitNote) : Option WellSkyVisitNoteRequest :=
  n.visitDate.map (fun d =>
    let shiftVal :=
      match metaShift n.metadata with
      | some s => if s = "" then n.visitId else s
      | none => n.visitId
    { carelog := ""
      shift := shiftVal
      unavailability := ""
      date := formatDate d
      tags :=
        match metaTags n.metadata with
        | some t => if t = "" then "38060" else t
        | none => "38060"
      note := n.note
      show_with_billing := "on"
      show_with_payroll := "on" })

/-- The four responses the network returns during `authenticate`, in call
order: login page GET, `/multilogin/` POST, primary login POST, dashboard
follow-up GET. -/
structure AuthEnv where
  loginPage : HTTPResp
  multilogin : HTTPResp
  login : HTTPResp
  dashboard : HTTPResp
deriving Repr, DecidableEq

/-- Outcome of `authenticate`. -/
inductive AuthOutcome where
  | ok (s : Session)
  | err (e : EMRAdapterError)
deriving Repr, DecidableEq

/-- The multilogin failure check: a structured 200 payload that does not
indicate success (`!result.success`) or carries a non-empty `errors` list. -/
def multiloginRejected (r : HTTPResp) : Bool :=
  (r.status == 200) &&
    (match r.body with
     | .obj success errors =>
       (match success with | some true => false | _ => true) ||
         (match errors with | some es => decide (0 < es.length) | none => false)
     | .str _ => false)

/-- `response.headers['location'] || ''`. -/
def headerGet (hs : List (String × String)) (k : String) : String :=
  match recGet hs k with
  | some v => v
  | none => ""

/-- `authenticate`: the four-step login flow, returning the outcome and the
session-manager state after it. Every failure is already, or is wrapped
into, an Authentication-kind `EMRAdapterError` by the surrounding
`try/catch`. -/
def authenticate (env : AuthEnv) (sm0 : Option Session) : AuthOutcome × Option Session :=
  let sm1 := updateCookies sm0 env.loginPage.cookies
  match extractCSRFToken env.loginPage.body with
  | none =>
    (.err { message := "Failed to extract CSRF token from login page"
            type := .Authentication, emrType := .WellSky }, sm1)
  | some csrf =>
    let sm2 := updateCookies sm1 env.multilogin.cookies
    if multiloginRejected env.multilogin then
      (.err { message := "WellSky multilogin failed", type := .Authentication
              emrType := .WellSky, originalError := some (.resp env.multilogin) }, sm2)
    else
      let sm3 := updateCookies sm2 env.login.cookies
      let location := headerGet env.login.headers "location"
      if (env.login.status == 302) &&
          (jsIncludes location "/dashboard" || jsIncludes location "/live") then
        let sm4 := updateCookies sm3 env.dashboard.cookies
        let session : Session := { cookies := getCookies sm4, tokens := [("csrf", csrf)] }
        (.ok session, some session)
      else
        (.err { message := "WellSky authentication failed", type := .Authentication
                emrType := .WellSky, originalError := some (.resp env.login) }, sm3)

/-- The responses the network returns during one `postVisitNote` attempt, in
call order: `/scheduling/` GET, `/dashboard/live/` probe GET, note-creation
POST. An attempt that fails early never consults the later fields. -/
structure PostEnv where
  scheduling : HTTPResp
  dashboard : HTTPResp
  submit : HTTPResp
deriving Repr, DecidableEq

/-- Result of one `postVisitNote` attempt body, with the session state it
leaves behind and which of the optional network calls it performed. -/
structure AttemptOut where
  result : Except Thrown PostResult
  sessionAfter : Option Session
  dashboardProbed : Bool
  submitPosted : Bool
deriving Repr, DecidableEq

/-- `JSON.stringify(formData, null, 2)` and the `substring(0, 500)` body
preview, abstracted to simple renderings (their exact text is never
inspected by callers). -/
def bodyPreviewOf (b : JsBody) : String :=
  match b with
  | .str s => s.take 500
  | .obj _ _ => "[object Object]"

/-- The long 403 diagnostic message of `postVisitNote`. -/
def forbidden403Message (bodyPreview : String) (fd : WellSkyVisitNoteRequest) : String :=
  "WellSky post visit note failed with 403 Forbidden. This may indicate:\n" ++
    "1. CSRF token is invalid or expired\n2. Session has expired\n" ++
    "3. Missing required permissions\nResponse body: " ++ bodyPreview ++
    "\nRequest data: " ++ toString (repr fd)

/-- One attempt body of `WellSkyAdapter.postVisitNote` (the function passed
to `handleRetry`): refresh the scheduling page, detect session loss via the
dashboard probe, re-scrape the token, build and submit the form. -/
def wellskyAttempt (env : PostEnv) (sm : Option Session) (note : VisitNote)
    (now : Int) : AttemptOut :=
  let csrf0 := recGet (getTokens sm) "csrf"
  let smA := updateCookies sm env.scheduling.cookies
  let sessionLoss := (env.scheduling.status == 403) || (env.scheduling.status == 302)
  if sessionLoss && ((env.dashboard.status == 403) || (env.dashboard.status == 302)) then
    { result := .error (.adapterError
        { message := "Session expired or invalid. Please login again."
          type := .Authentication, emrType := .WellSky
          originalError := some (.statusPair env.scheduling.status env.dashboard.status) })
      sessionAfter := smA, dashboardProbed := true, submitPosted := false }
  else
    let tokenScrape :=
      if env.scheduling.status == 200 then extractCSRFToken env.scheduling.body else none
    let csrf1 := match tokenScrape with | some t => some t | none => csrf0
    let smB := match tokenScrape with | some t => updateTokens smA [("csrf", t)] | none => smA
    match csrf1 with
    | none =>
      { result := .error (.adapterError
          { message := "Failed to obtain CSRF token. Please try logging in again."
            type := .Authentication, emrType := .WellSky })
        sessionAfter := smB, dashboardProbed := sessionLoss, submitPosted := false }
    | some tok =>
      match transform note with
      | none =>
        { result := .error (.jsError "TypeError: formatDate of undefined visitDate")
          sessionAfter := smB, dashboardProbed := sessionLoss, submitPosted := false }
      | some fd0 =>
        let fd := { fd0 with csrfmiddlewaretoken := some tok }
        let smC := updateCookies smB env.submit.cookies
        if (200 ≤ env.submit.status) && (env.submit.status < 400) then
          { result := .ok
              { success := true, visitId := note.visitId, timestamp := now
                request := some fd, response := some env.submit.body }
            sessionAfter := smC, dashboardProbed := sessionLoss, submitPosted := true }
        else if env.submit.status == 403 then
          let preview := bodyPreviewOf env.submit.body
          { result := .error (.adapterError
              { message := forbidden403Message preview fd
                type := .Authentication, emrType := .WellSky
                originalError := some (.forbidden env.submit.status env.submit.statusText
                  env.submit.headers preview fd "present") })
            sessionAfter := smC, dashboardProbed := sessionLoss, submitPosted := true }
        else
          { result := .error (.adapterError
              { message := "WellSky post visit note failed with status " ++
                  toString env.submit.status ++ " " ++ env.submit.statusText
                type := .EMRSpecific, emrType := .WellSky
                originalError := some (.resp env.submit) })
            sessionAfter := smC, dashboardProbed := sessionLoss, submitPosted := true }

/-- The session-manager state before the `k`-th retry attempt (attempt
bodies mutate the manager even when they throw). -/
def wellskyStates (env : Nat → PostEnv) (sm0 : Option Session) (note : VisitNote)
    (now : Int) : Nat → Option Session
  | 0 => sm0
  | k + 1 => (wellskyAttempt (env k) (wellskyStates env sm0 note now k) note now).sessionAfter

/-- `WellSkyAdapter.postVisitNote`: the not-authenticated guard (thrown
before `handleRetry`, modelled as a zero-invocation trace), then the attempt
body under `handleRetry` with the default retryability predicate. -/
def wellskyPostVisitNote (env : Nat → PostEnv) (sm0 : Option Session) (note : VisitNote)
    (now : Int) : ExecTrace PostResult :=
  if !isAuthenticatedAt now sm0 then
    { outcome := .threw (.adapterError
        { message := "Not authenticated. Please call authenticate() first."
          type := .Authentication, emrType := .WellSky })
      calls := 0, sleeps := [] }
  else
    execute baseRetryConfig
      (fun k => (wellskyAttempt (env k) (wellskyStates env sm0 note now k) note now).result)
      (some defaultIsRetryable)

/-! ## VisitNoteService (`src/services/visit-note-service.ts`) -/

/-- `validateVisitNote`: the first failing required-field check, as the
message of the plain `Error` it throws; `none` when the record passes. -/
def validateVisitNote (note : VisitNote) : Option String :=
  if note.visitId = "" then some "visitId is required"
  else if note.patientId = "" then some "patientId is required"
  else if note.caregiverId = "" then some "caregiverId is required"
  else if note.note = "" then some "note content is required"
  else if note.visitDate = none then some "visitDate is required"
  else none

/-- What a caller of `VisitNoteService.postVisitNote` observes: a result, a
plain untagged `Error` (escaping the service unwrapped), or a tagged
`EMRAdapterError`. -/
inductive ServiceOutcome where
  | ok (r : PostResult)
  | rawError (message : String)
  | adapterError (e : EMRAdapterError)
deriving Repr, DecidableEq

/-- `VisitNoteService.postVisitNote`: validation runs before the `try`
block, so its plain `Error` is never caught or wrapped; the adapter call
(a pure value here — the network's verdict) is only consulted afterwards.
`EMRAdapterError`s are rethrown as-is; anything else is wrapped with kind
`(error as any).type || ErrorType.EMRSpecific`, which is `EMRSpecific` for a
plain error. -/
def servicePostVisitNote (adapterCall : Except Thrown PostResult) (emr : EMRType)
    (note : VisitNote) : ServiceOutcome :=
  match validateVisitNote note with
  | some msg => .rawError msg
  | none =>
    match adapterCall with
    | .ok r => .ok r
    | .error (.adapterError e) => .adapterError e
    | .error (.jsError m) =>
      .adapterError { message := "Failed to post visit note: " ++ m
                      type := .EMRSpecific, emrType := emr, originalError := some (.js m) }

/-! ## Claims about the retry policy (C4, C9) -/

/-- CLAIM C4 — counterexample. The claim quantifies over retry handlers
configured only by `maxAttempts = 3` and `backoffMs = 100` and asserts that
an always-failing operation is invoked exactly 3 times with sleeps of 100 ms
and 200 ms. With an empty `retryableErrors` list and no predicate, the
failure message matches no pattern, so `execute` re-raises after the first
invocation: 1 call, no sleeps — not 3 calls with sleeps `[100, 200]`. -/
theorem c4_counterexample :
    execute ⟨3, 100, []⟩ (fun _ => (.error (.jsError "boom") : Except Thrown Unit)) none =
      ⟨.threw (.jsError "boom"), 1, []⟩ ∧
    (execute ⟨3, 100, []⟩ (fun _ => (.error (.jsError "boom") : Except Thrown Unit)) none).calls ≠ 3 := by
  decide

/-- CLAIM C4 — amended: for a handler configured with `maxAttempts = 3` and
`backoffMs = 100`, an operation whose every failure is classified retryable
(here: no caller predicate, and each failure's message contains one of the
configured substring patterns) is invoked exactly 3 times, sleeps 100 ms
after the first failure and 200 ms after the second (`backoffMs * 2^(attempt-1)`,
no wait after the final failure), and the failure of the last attempt itself
is re-raised with no wrapper. -/
theorem c4_retry_exhaustion (pats : List String) (e : Nat → Thrown)
    (hre : ∀ k < 3, pats.any (fun pat => jsIncludes (Thrown.msg (e k)) pat) = true) :
    execute ⟨3, 100, pats⟩ (fun k => (.error (e k) : Except Thrown Unit)) none =
      ⟨.threw (e 2), 3, [100, 200]⟩ := by
  have h0 := hre 0 (by omega)
  have h1 := hre 1 (by omega)
  simp [execute, executeAux, h0, h1]

/-- Witness for C4 (amended): a concrete always-failing retryable operation
observes exactly the trace the theorem predicts. -/
theorem c4_retry_exhaustion_witness :
    execute ⟨3, 100, ["boom"]⟩ (fun _ => (.error (.jsError "boom") : Except Thrown Unit)) none =
      ⟨.threw (.jsError "boom"), 3, [100, 200]⟩ :=
  c4_retry_exhaustion ["boom"] (fun _ => .jsError "boom") (by decide)

/-- Generic helper: a caller-supplied predicate that vetoes the first
failure makes `execute` re-raise it after a single invocation. -/
theorem execute_stops_when_pred_false {α : Type} (cfg : RetryConfig) (e : Thrown)
    (p : Thrown → Bool) (op : Nat → Except Thrown α)
    (hmax : 1 ≤ cfg.maxAttempts) (hop : op 0 = .error e) (hp : p e = false) :
    execute cfg op (some p) = ⟨.threw e, 1, []⟩ := by
  obtain ⟨f, hf⟩ : ∃ f, cfg.maxAttempts = f + 1 :=
    ⟨cfg.maxAttempts - 1, by omega⟩
  rw [execute, hf, executeAux, hop]
  by_cases hf0 : f = 0
  · simp [hf, hf0]
  · simp [hf, hp, Nat.add_le_add_iff_right, hf0]

/-- CLAIM C9 — confirmed: when a caller-supplied predicate returns `false`
for the first failure, the operation is invoked exactly once and that first
failure is re-raised with no sleeps — whatever the configured pattern list
says (the theorem holds for every `retryableErrors`, including lists that
match the message). -/
theorem c9_predicate_authoritative (cfg : RetryConfig) (e : Thrown) (p : Thrown → Bool)
    (op : Nat → Except Thrown Unit)
    (hmax : 1 ≤ cfg.maxAttempts) (hop : op 0 = .error e) (hp : p e = false) :
    execute cfg op (some p) = ⟨.threw e, 1, []⟩ :=
  execute_stops_when_pred_false cfg e p op hmax hop hp

/-- Witness for C9: a predicate that vetoes retry wins even though the
message "timeout reached" contains the configured pattern "timeout". -/
theorem c9_predicate_authoritative_witness :
    execute ⟨3, 100, ["timeout"]⟩ (fun _ => (.error (.jsError "timeout reached") : Except Thrown Unit))
        (some (fun _ => false)) = ⟨.threw (.jsError "timeout reached"), 1, []⟩ ∧
    jsIncludes "timeout reached" "timeout" = true :=
  ⟨c9_predicate_authoritative ⟨3, 100, ["timeout"]⟩ (.jsError "timeout reached") (fun _ => false)
      (fun _ => .error (.jsError "timeout reached")) (by decide) rfl rfl,
    by decide⟩

/-! ## Claim C1: validation failures cross the service boundary untagged -/

/-- CLAIM C1 — code bug. The claim (and the spec's error taxonomy) says a
record with an empty/absent required field makes `VisitNoteService.postVisitNote`
fail before any network call with an Adapter Error tagged `Validation`. The
code does fail before any network call — the outcome below does not depend
on `adapterCall`, the network's verdict — but `validateVisitNote` throws a
plain `Error`, raised before the service's `try/catch`, so the caller
observes a raw untagged exception (`ServiceOutcome.rawError`), never an
`EMRAdapterError`; indeed `ErrorType.Validation` is constructed nowhere in
the codebase. -/
theorem c1_validation_untagged (note : VisitNote) (adapterCall : Except Thrown PostResult)
    (h : note.visitId = "" ∨ note.patientId = "" ∨ note.caregiverId = "" ∨
      note.note = "" ∨ note.visitDate = none) :
    ∃ msg, servicePostVisitNote adapterCall .WellSky note = .rawError msg := by
  have hv : validateVisitNote note ≠ none := by
    unfold validateVisitNote
    rcases h with h | h | h | h | h <;> simp only [h] <;> split_ifs <;> simp
  cases hv2 : validateVisitNote note with
  | none => exact absurd hv2 hv
  | some msg => exact ⟨msg, by unfold servicePostVisitNote; rw [hv2]⟩

/-- Witness for C1: a record with an empty `visitId` yields the raw
`"visitId is required"` error, whatever the adapter would have returned. -/
theorem c1_validation_untagged_witness :
    ∃ msg, servicePostVisitNote (.error (.jsError "unreached")) .WellSky
      ⟨"", "p1", "c1", some ⟨2025, 11, 22⟩, "", "", "ok", none⟩ = .rawError msg :=
  c1_validation_untagged ⟨"", "p1", "c1", some ⟨2025, 11, 22⟩, "", "", "ok", none⟩
    (.error (.jsError "unreached")) (Or.inl rfl)

/-! ## Claim C2: a 5xx submission response is not retried -/

/-- A logged-in session fixture: one cookie, a stored CSRF token, no expiry. -/
def smTok : Option Session := some ⟨["sessionid=abc"], [("csrf", "tok0")], none⟩

/-- A well-formed canonical record fixture. -/
def noteOk : VisitNote := ⟨"123", "p1", "c1", some ⟨2025, 11, 22⟩, "", "", "ok", none⟩

/-- Environment for C2: scheduling page 200 (no fresh token in the body, so
the session's stored token is used) and a submission POST answering 500. -/
def c2Env : PostEnv :=
  ⟨⟨200, "OK", [], .str "nope", []⟩, ⟨200, "OK", [], .str "", []⟩,
    ⟨500, "Internal Server Error", [], .str "oops", []⟩⟩

/-- The `EMRSpecific` error the 500 response produces. -/
def c2Err : EMRAdapterError :=
  { message := "WellSky post visit note failed with status 500 Internal Server Error"
    type := .EMRSpecific, emrType := .WellSky
    originalError := some (.resp ⟨500, "Internal Server Error", [], .str "oops", []⟩) }

/-- CLAIM C2 — code bug. The claim (with the spec and the code's own comment
"network errors and 5xx errors are retryable" in `handleRetry`) says a
500-range submission response is classified as a server failure and retried.
In the code, the 5xx failure is thrown as an `EMRAdapterError` that carries
the response only in `originalError`; the default retry predicate reads
`error.status`, which is `undefined` on that class, and `isNetworkError`
finds no marker in the message, so the predicate vetoes the retry and the
failure is re-raised after a single invocation: exactly 1 call, no sleeps. -/
theorem c2_server_error_not_retried :
    wellskyPostVisitNote (fun _ => c2Env) smTok noteOk 0 =
      ⟨.threw (.adapterError c2Err), 1, []⟩ ∧
    isServerError 500 = true ∧
    Thrown.statusProp (.adapterError c2Err) = none ∧
    defaultIsRetryable (.adapterError c2Err) = false := by
  decide

/-! ## Claim C7: session save/load round-trip -/

/-- CLAIM C7 — counterexample. The claim says every saved session reloads to
a session whose `isExpired()` verdict at the same instant matches the
original's. A session already expired at the load instant (verdict `true`)
reloads as `null` — `loadSession` filters expired sessions out — so no
session with a matching verdict is yielded. -/
theorem c7_counterexample :
    isExpiredForSessionAt 5 ⟨["a=1"], [("csrf", "t")], some 0⟩ = true ∧
    loadSession 5 (.wellFormed (saveSession ⟨["a=1"], [("csrf", "t")], some 0⟩)) = none := by
  decide

/-- CLAIM C7 — amended: for every session *not expired at the instant of
reload*, `saveSession` followed by `loadSession` yields exactly the original
session — hence equal cookies, equal tokens, and the same (false)
`isExpired()` verdict at that instant; a session already expired at that
instant reloads as `null`; malformed or unreadable persisted data yields
`null` (no session, never a crash). -/
theorem c7_roundtrip (s : Session) (now : Int)
    (h : isExpiredForSessionAt now s = false) :
    loadSession now (.wellFormed (saveSession s)) = some s ∧
    loadSession now .malformed = none ∧
    loadSession now .absent = none := by
  refine ⟨?_, rfl, rfl⟩
  unfold loadSession saveSession
  simp [h]

/-- Witness for C7 (amended): a concrete not-yet-expired session
round-trips. -/
theorem c7_roundtrip_witness :
    loadSession 5 (.wellFormed (saveSession ⟨["a=1"], [("t", "v")], some 100⟩)) =
      some ⟨["a=1"], [("t", "v")], some 100⟩ ∧
    loadSession 5 .malformed = none ∧
    loadSession 5 .absent = none :=
  c7_roundtrip ⟨["a=1"], [("t", "v")], some 100⟩ 5 (by decide)

/-! ## Cookie-merge lemmas (for C6 and C10)

The merge builds a JS `Map` (association list `m` with `Prod.fst` the parsed
cookie name and `Prod.snd` the full cookie string) and stores its values.
The lemmas below characterise `mapSet`/`cookieMapAdd` lookups, show the map
keeps well-named entries with pairwise-distinct keys, and reduce the stored
value list to a per-name lookup. -/

/-- The last cookie of `cs` whose parsed name is `n` (the survivor of the
last-write-wins merge). -/
def lastNamed (cs : List String) (n : String) : Option String :=
  (cs.filter (fun c => cookieName c == n)).getLast?

theorem bool_eq_false {b : Bool} (h : ¬b = true) : b = false := by
  cases b
  · rfl
  · exact absurd rfl h

theorem recGet_replaceMap_same (m : List (String × String)) (k v : String)
    (h : m.any (fun p => p.1 == k) = true) :
    recGet (m.map (fun p => if p.1 == k then (k, v) else p)) k = some v := by
  induction m with
  | nil => simp at h
  | cons p rest ih =>
    rw [List.map_cons]
    by_cases hp : (p.1 == k) = true
    · rw [if_pos hp]
      simp only [recGet]
      rw [if_pos (beq_self_eq_true k)]
    · have h' : rest.any (fun q => q.1 == k) = true := by
        rw [List.any_cons] at h
        simpa [hp] using h
      rw [if_neg hp]
      simp only [recGet]
      rw [if_neg hp]
      exact ih h'

theorem recGet_replaceMap_other (m : List (String × String)) (k v n : String)
    (hne : n ≠ k) :
    recGet (m.map (fun p => if p.1 == k then (k, v) else p)) n = recGet m n := by
  induction m with
  | nil => rfl
  | cons p rest ih =>
    rw [List.map_cons]
    have hkn : ¬((k == n) = true) := fun hcon => hne (eq_of_beq hcon).symm
    by_cases hp : (p.1 == k) = true
    · have h2 : ¬((p.1 == n) = true) :=
        fun hcon => hne ((eq_of_beq hcon).symm.trans (eq_of_beq hp))
      rw [if_pos hp]
      simp only [recGet]
      rw [if_neg hkn, if_neg h2]
      exact ih
    · rw [if_neg hp]
      simp only [recGet]
      by_cases hn2 : (p.1 == n) = true
      · rw [if_pos hn2, if_pos hn2]
      · rw [if_neg hn2, if_neg hn2]
        exact ih

theorem recGet_none_of_any_false (m : List (String × String)) (k : String)
    (h : m.any (fun p => p.1 == k) = false) :
    recGet m k = none := by
  induction m with
  | nil => rfl
  | cons p rest ih =>
    rw [List.any_cons] at h
    simp only [Bool.or_eq_false_iff] at h
    simp only [recGet]
    rw [if_neg (by rw [h.1]; simp)]
    exact ih h.2

theorem recGet_append_right (m m' : List (String × String)) (n : String)
    (h : recGet m n = none) :
    recGet (m ++ m') n = recGet m' n := by
  induction m with
  | nil => rfl
  | cons p rest ih =>
    simp only [recGet] at h
    by_cases hp : (p.1 == n) = true
    · rw [if_pos hp] at h
      exact absurd h (by simp)
    · rw [if_neg hp] at h
      rw [List.cons_append]
      simp only [recGet]
      rw [if_neg hp]
      exact ih h

theorem recGet_append_single_other (m : List (String × String)) (k v n : String)
    (hne : n ≠ k) :
    recGet (m ++ [(k, v)]) n = recGet m n := by
  induction m with
  | nil =>
    simp only [List.nil_append, recGet]
    rw [if_neg (fun hcon => hne (eq_of_beq hcon).symm)]
  | cons p rest ih =>
    rw [List.cons_append]
    simp only [recGet]
    by_cases hp : (p.1 == n) = true
    · rw [if_pos hp, if_pos hp]
    · rw [if_neg hp, if_neg hp]
      exact ih

theorem recGet_mapSet_same (m : List (String × String)) (k v : String) :
    recGet (mapSet m k v) k = some v := by
  unfold mapSet
  by_cases h : m.any (fun p => p.1 == k) = true
  · rw [if_pos h]
    exact recGet_replaceMap_same m k v h
  · rw [if_neg h]
    rw [recGet_append_right m [(k, v)] k (recGet_none_of_any_false m k (bool_eq_false h))]
    simp only [recGet]
    rw [if_pos (beq_self_eq_true k)]

theorem recGet_mapSet_other (m : List (String × String)) (k v n : String)
    (hne : n ≠ k) :
    recGet (mapSet m k v) n = recGet m n := by
  unfold mapSet
  by_cases h : m.any (fun p => p.1 == k) = true
  · rw [if_pos h]
    exact recGet_replaceMap_other m k v n hne
  · rw [if_neg h]
    exact recGet_append_single_other m k v n hne

theorem recGet_cookieMapAdd (B : List String) :
    ∀ (m : List (String × String)) (n : String), n ≠ "" →
      recGet (cookieMapAdd m B) n =
        match lastNamed B n with
        | some c => some c
        | none => recGet m n := by
  induction B with
  | nil => intro m n _; simp [cookieMapAdd, lastNamed]
  | cons c B' ih =>
    intro m n hn
    rw [cookieMapAdd, ih _ n hn]
    unfold lastNamed
    rw [List.filter_cons]
    by_cases hce : cookieName c = ""
    · have hcn : ¬((cookieName c == n) = true) :=
        fun hcon => hn ((eq_of_beq hcon).symm.trans hce)
      rw [if_pos hce, if_neg hcn]
    · rw [if_neg hce]
      by_cases hc : (cookieName c == n) = true
      · have hcn : cookieName c = n := eq_of_beq hc
        rw [if_pos hc]
        cases hF : B'.filter (fun x => cookieName x == n) with
        | nil =>
          simp only [List.getLast?_nil, List.getLast?_singleton]
          rw [hcn]
          exact recGet_mapSet_same m n c
        | cons d ds =>
          rw [List.getLast?_cons_cons]
          obtain ⟨w, hw⟩ := Option.isSome_iff_exists.mp
            (List.getLast?_isSome.mpr (List.cons_ne_nil d ds))
          rw [hw]
      · rw [if_neg hc]
        cases hF : (B'.filter (fun x => cookieName x == n)).getLast? with
        | some c' => rfl
        | none =>
          show recGet (mapSet m (cookieName c) c) n = recGet m n
          exact recGet_mapSet_other m (cookieName c) c n
            (fun h => hc (beq_iff_eq.mpr h.symm))

/-- Invariant of the merge map: every entry's key is the parsed name of its
cookie string and is non-empty. -/
def GoodEntries (m : List (String × String)) : Prop :=
  ∀ p ∈ m, p.1 = cookieName p.2 ∧ p.1 ≠ ""

theorem goodEntries_mapSet (m : List (String × String)) (k v : String)
    (hm : GoodEntries m) (hk : k = cookieName v) (hk2 : k ≠ "") :
    GoodEntries (mapSet m k v) := by
  unfold mapSet
  by_cases h : m.any (fun p => p.1 == k) = true
  · rw [if_pos h]
    intro p hp
    obtain ⟨q, hq, rfl⟩ := List.mem_map.mp hp
    by_cases hqk : (q.1 == k) = true
    · rw [if_pos hqk]
      exact ⟨hk, hk2⟩
    · rw [if_neg hqk]
      exact hm q hq
  · rw [if_neg h]
    intro p hp
    rcases List.mem_append.mp hp with h' | h'
    · exact hm p h'
    · rw [List.mem_singleton] at h'
      subst h'
      exact ⟨hk, hk2⟩

theorem keys_replaceMap (m : List (String × String)) (k v : String) :
    (m.map (fun p => if p.1 == k then (k, v) else p)).map Prod.fst = m.map Prod.fst := by
  induction m with
  | nil => rfl
  | cons p rest ih =>
    rw [List.map_cons, List.map_cons, List.map_cons]
    by_cases h : (p.1 == k) = true
    · rw [if_pos h, ih]
      exact congrArg (· :: rest.map Prod.fst) (eq_of_beq h).symm
    · rw [if_neg h, ih]

theorem keysNodup_mapSet (m : List (String × String)) (k v : String)
    (h : (m.map Prod.fst).Nodup) :
    ((mapSet m k v).map Prod.fst).Nodup := by
  unfold mapSet
  by_cases ha : m.any (fun p => p.1 == k) = true
  · rw [if_pos ha, keys_replaceMap]
    exact h
  · rw [if_neg ha, List.map_append]
    have hk : k ∉ m.map Prod.fst := by
      intro hmem
      obtain ⟨p, hp, hpk⟩ := List.mem_map.mp hmem
      exact ha (List.any_eq_true.mpr ⟨p, hp, by rw [hpk]; exact beq_self_eq_true k⟩)
    simp [List.nodup_append, h, hk]

theorem good_cookieMapAdd (cs : List String) :
    ∀ m : List (String × String), GoodEntries m → (m.map Prod.fst).Nodup →
      GoodEntries (cookieMapAdd m cs) ∧ ((cookieMapAdd m cs).map Prod.fst).Nodup := by
  induction cs with
  | nil => intro m h1 h2; exact ⟨h1, h2⟩
  | cons c cs' ih =>
    intro m h1 h2
    rw [cookieMapAdd]
    by_cases hc : cookieName c = ""
    · rw [if_pos hc]
      exact ih m h1 h2
    · rw [if_neg hc]
      exact ih _ (goodEntries_mapSet m _ c h1 rfl hc) (keysNodup_mapSet m _ c h2)

theorem filter_values_eq (m : List (String × String)) (n : String)
    (hg : GoodEntries m) (hnd : (m.map Prod.fst).Nodup) :
    (m.map Prod.snd).filter (fun c => cookieName c == n) =
      match recGet m n with
      | some v => [v]
      | none => [] := by
  induction m with
  | nil => rfl
  | cons p rest ih =>
    obtain ⟨hp1, _⟩ := hg p (List.mem_cons_self p rest)
    have hgrest : GoodEntries rest := fun q hq => hg q (List.mem_cons_of_mem p hq)
    rw [List.map_cons] at hnd
    have hnd' := List.nodup_cons.mp hnd
    rw [List.map_cons, List.filter_cons]
    simp only [recGet]
    by_cases hc : (cookieName p.2 == n) = true
    · have hpn : p.1 = n := hp1.trans (eq_of_beq hc)
      have hbeq : (p.1 == n) = true := by rw [hpn]; exact beq_self_eq_true n
      rw [if_pos hc, if_pos hbeq]
      have hrest : (rest.map Prod.snd).filter (fun c => cookieName c == n) = [] := by
        rw [List.filter_eq_nil_iff]
        intro a ha
        obtain ⟨q, hq, rfl⟩ := List.mem_map.mp ha
        obtain ⟨hq1, _⟩ := hgrest q hq
        intro hcon
        exact hnd'.1
          (List.mem_map.mpr ⟨q, hq, (hq1.trans (eq_of_beq hcon)).trans hpn.symm⟩)
      rw [hrest]
    · have hbne : ¬((p.1 == n) = true) :=
        fun hcon => hc (beq_iff_eq.mpr (hp1.symm.trans (eq_of_beq hcon)))
      rw [if_neg hc, if_neg hbne]
      exact ih hgrest hnd'.2

theorem names_eq_keys (m : List (String × String)) (hg : GoodEntries m) :
    (m.map Prod.snd).map cookieName = m.map Prod.fst := by
  induction m with
  | nil => rfl
  | cons p rest ih =>
    obtain ⟨hp1, _⟩ := hg p (List.mem_cons_self p rest)
    have hgrest : GoodEntries rest := fun q hq => hg q (List.mem_cons_of_mem p hq)
    rw [List.map_cons, List.map_cons, List.map_cons, ih hgrest]
    exact congrArg (· :: rest.map Prod.fst) hp1.symm

/-- The first defined of two optional values (`a` wins when present). -/
def firstSome (a b : Option String) : Option String :=
  match a with
  | some x => some x
  | none => b

/-- The core merge property: merging incoming cookies `B` over an existing
cookie list `cs0` leaves, for each non-empty name `n`, exactly the last
`B`-cookie of that name, else the last `cs0`-cookie of that name, else
nothing. -/
theorem mergeFilter (cs0 B : List String) (n : String) (hn : n ≠ "") :
    ((cookieMapAdd (cookieMapAdd [] cs0) B).map Prod.snd).filter
        (fun c => cookieName c == n) =
      (firstSome (lastNamed B n) (lastNamed cs0 n)).toList := by
  have h0 := good_cookieMapAdd cs0 [] (fun p hp => absurd hp (List.not_mem_nil p)) (by simp)
  have h1 := good_cookieMapAdd B _ h0.1 h0.2
  rw [filter_values_eq _ n h1.1 h1.2]
  rw [recGet_cookieMapAdd B _ n hn, recGet_cookieMapAdd cs0 _ n hn]
  cases lastNamed B n <;> cases lastNamed cs0 n <;> simp [recGet, firstSome]

/-! ## Claim C6: the session cookie merge -/

/-- CLAIM C6 — counterexample. The claim quantifies over all cookie lists
and asserts every name of `A` not occurring in `B` is preserved. An entry
whose parsed name is empty (text before the first `=`), such as `"=x"`, is
silently dropped by the merge (`if (name)` skips it), so its name has no
entry in the result instead of exactly one. -/
theorem c6_counterexample :
    getCookies (updateCookies (updateCookies (some ⟨[], [], none⟩) ["=x"]) ["b=2"]) = ["b=2"] ∧
    "=x" ∉ getCookies (updateCookies (updateCookies (some ⟨[], [], none⟩) ["=x"]) ["b=2"]) ∧
    cookieName "=x" = "" := by
  decide

/-- CLAIM C6 — amended: for cookie lists `A` then `B` applied in order
through `updateCookies` to an (initially cookie-free) session, and for every
*non-empty* cookie name `n`, the resulting cookie list contains exactly the
entries the claim demands: the last `B`-entry named `n` when `B` has one
(`B`'s full cookie string wins), else the last `A`-entry named `n` when `A`
has one (non-conflicting `A`-names preserved), else none — i.e. exactly one
entry per distinct non-empty name of `A ++ B`. Entries with an empty parsed
name are dropped by the merge. Re-applying `B` leaves the per-name content
unchanged (no growth under repeated updates). -/
theorem c6_cookie_merge (A B : List String) (n : String) (hn : n ≠ "") :
    (getCookies (updateCookies (updateCookies (some ⟨[], [], none⟩) A) B)).filter
        (fun c => cookieName c == n) =
      (firstSome (lastNamed B n) (lastNamed A n)).toList ∧
    (getCookies (updateCookies (updateCookies (updateCookies (some ⟨[], [], none⟩) A) B) B)).filter
        (fun c => cookieName c == n) =
      (firstSome (lastNamed B n) (lastNamed A n)).toList := by
  have hA : lastNamed ((cookieMapAdd (cookieMapAdd [] []) A).map Prod.snd) n =
      lastNamed A n := by
    show (((cookieMapAdd (cookieMapAdd [] []) A).map Prod.snd).filter
        (fun c => cookieName c == n)).getLast? = lastNamed A n
    rw [mergeFilter [] A n hn]
    cases lastNamed A n <;> rfl
  have h1 : ((cookieMapAdd (cookieMapAdd []
        ((cookieMapAdd (cookieMapAdd [] []) A).map Prod.snd)) B).map Prod.snd).filter
        (fun c => cookieName c == n) =
      (firstSome (lastNamed B n) (lastNamed A n)).toList := by
    rw [mergeFilter _ B n hn, hA]
  have hB : lastNamed ((cookieMapAdd (cookieMapAdd []
        ((cookieMapAdd (cookieMapAdd [] []) A).map Prod.snd)) B).map Prod.snd) n =
      firstSome (lastNamed B n) (lastNamed A n) := by
    show (((cookieMapAdd (cookieMapAdd []
        ((cookieMapAdd (cookieMapAdd [] []) A).map Prod.snd)) B).map Prod.snd).filter
        (fun c => cookieName c == n)).getLast? = _
    rw [h1]
    cases lastNamed B n <;> cases lastNamed A n <;> rfl
  refine ⟨h1, ?_⟩
  show ((cookieMapAdd (cookieMapAdd [] ((cookieMapAdd (cookieMapAdd []
      ((cookieMapAdd (cookieMapAdd [] []) A).map Prod.snd)) B).map Prod.snd)) B).map Prod.snd).filter
      (fun c => cookieName c == n) = _
  rw [mergeFilter _ B n hn, hB]
  cases lastNamed B n <;> rfl

/-- Witness for C6 (amended) at concrete lists: `A = ["a=1", "b=2"]`,
`B = ["b=9"]`, name `"b"`. -/
theorem c6_cookie_merge_witness :
    (getCookies (updateCookies (updateCookies (some ⟨[], [], none⟩) ["a=1", "b=2"]) ["b=9"])).filter
        (fun c => cookieName c == "b") =
      (firstSome (lastNamed ["b=9"] "b") (lastNamed ["a=1", "b=2"] "b")).toList ∧
    (getCookies (updateCookies (updateCookies (updateCookies (some ⟨[], [], none⟩)
        ["a=1", "b=2"]) ["b=9"]) ["b=9"])).filter (fun c => cookieName c == "b") =
      (firstSome (lastNamed ["b=9"] "b") (lastNamed ["a=1", "b=2"] "b")).toList :=
  c6_cookie_merge ["a=1", "b=2"] ["b=9"] "b" (by decide)

/-! ## Claim C10: a first update on a null session stores the list verbatim -/

/-- CLAIM C10 — confirmed: with no session, `updateCookies(list)` stores the
incoming list verbatim — duplicate names and empty-named entries included —
with an empty token map (and no expiry); the one-entry-per-name shape only
appears through a subsequent merge into the now-existing session, after
which the cookie names are pairwise distinct. -/
theorem c10_initial_update_verbatim :
    (∀ L : List String, updateCookies none L = some ⟨L, [], none⟩) ∧
    (∀ L M : List String,
      ((getCookies (updateCookies (updateCookies none L) M)).map cookieName).Nodup) := by
  constructor
  · intro L
    rfl
  · intro L M
    have h0 := good_cookieMapAdd L [] (fun p hp => absurd hp (List.not_mem_nil p)) (by simp)
    have h1 := good_cookieMapAdd M _ h0.1 h0.2
    show (((cookieMapAdd (cookieMapAdd [] L) M).map Prod.snd).map cookieName).Nodup
    rw [names_eq_keys _ h1.1]
    exact h1.2


/-! ## Claim C3: authenticate success detection -/

/-- The success condition step 4 of `authenticate` actually tests: status
exactly 302 and a Location containing `/dashboard` or `/live`. -/
def loginRedirectOk (r : HTTPResp) : Bool :=
  (r.status == 302) &&
    (jsIncludes (headerGet r.headers "location") "/dashboard" ||
      jsIncludes (headerGet r.headers "location") "/live")

/-- Environment for the C3 counterexample: the login page yields a token,
multilogin accepts, and the primary login answers with redirect status 303
whose Location contains the post-login fragment `/dashboard`. -/
def c3Env : AuthEnv :=
  { loginPage := ⟨200, "OK", [], .str "<input name='csrfmiddlewaretoken' value='T1'>", ["csrftoken=x"]⟩
    multilogin := ⟨200, "OK", [], .obj (some true) none, []⟩
    login := ⟨303, "See Other", [("location", "/dashboard/live/")], .str "", []⟩
    dashboard := ⟨200, "OK", [], .str "", []⟩ }

/-- CLAIM C3 — counterexample. The claim says `authenticate` succeeds
exactly when the primary login submission returns *a redirect status* whose
Location contains a post-login fragment. Here the login response is a 303
redirect (`300 ≤ 303 < 400`) to `/dashboard/live/`, yet `authenticate`
fails — the code accepts only status 302. -/
theorem c3_counterexample :
    (authenticate c3Env (some ⟨[], [], none⟩)).1 =
      .err { message := "WellSky authentication failed", type := .Authentication
             emrType := .WellSky, originalError := some (.resp c3Env.login) } ∧
    (300 ≤ c3Env.login.status ∧ c3Env.login.status < 400) ∧
    jsIncludes (headerGet c3Env.login.headers "location") "/dashboard" = true := by
  decide

/-- CLAIM C3 — amended: provided the login-page token scrape succeeds and
the multilogin response is not rejected, `authenticate` succeeds — returning
a session recording the scraped token under the `"csrf"` slot — exactly when
the primary login submission returns status 302 (not any other redirect
status) with a Location containing `/dashboard` or `/live`; any other
outcome fails with an Authentication-kind Adapter Error. -/
theorem c3_redirect_success (env : AuthEnv) (sm0 : Option Session) (csrf : String)
    (hx : extractCSRFToken env.loginPage.body = some csrf)
    (hm : multiloginRejected env.multilogin = false) :
    (loginRedirectOk env.login = true →
      ∃ s : Session, (authenticate env sm0).1 = .ok s ∧ s.tokens = [("csrf", csrf)]) ∧
    (loginRedirectOk env.login = false →
      ∃ e : EMRAdapterError, (authenticate env sm0).1 = .err e ∧ e.type = .Authentication) := by
  constructor
  · intro hok
    have heq : (authenticate env sm0).1 = .ok
        ⟨getCookies (updateCookies (updateCookies (updateCookies
            (updateCookies sm0 env.loginPage.cookies) env.multilogin.cookies)
            env.login.cookies) env.dashboard.cookies), [("csrf", csrf)], none⟩ := by
      unfold authenticate
      rw [hx]
      simp only [hm, Bool.false_eq_true, if_false]
      rw [if_pos (show ((env.login.status == 302) &&
        (jsIncludes (headerGet env.login.headers "location") "/dashboard" ||
          jsIncludes (headerGet env.login.headers "location") "/live")) = true from hok)]
    exact ⟨_, heq, rfl⟩
  · intro hfail
    have heq : (authenticate env sm0).1 = .err
        { message := "WellSky authentication failed", type := .Authentication
          emrType := .WellSky, originalError := some (.resp env.login) } := by
      unfold authenticate
      rw [hx]
      simp only [hm, Bool.false_eq_true, if_false]
      rw [if_neg (show ¬(((env.login.status == 302) &&
        (jsIncludes (headerGet env.login.headers "location") "/dashboard" ||
          jsIncludes (headerGet env.login.headers "location") "/live")) = true) by
          rw [show ((env.login.status == 302) &&
            (jsIncludes (headerGet env.login.headers "location") "/dashboard" ||
              jsIncludes (headerGet env.login.headers "location") "/live")) = loginRedirectOk env.login
            from rfl, hfail]
          simp)]
    exact ⟨_, heq, rfl⟩

/-- Environment for the C3 witness: same as the counterexample but with the
correct 302 status. -/
def c3EnvOk : AuthEnv :=
  { c3Env with login := ⟨302, "Found", [("location", "/dashboard/live/")], .str "", ["sessionid=s1"]⟩ }

/-- Witness for C3 (amended): the 302 redirect to `/dashboard/live/` yields
a session whose `"csrf"` token slot holds the scraped token. -/
theorem c3_redirect_success_witness :
    ∃ s : Session, (authenticate c3EnvOk (some ⟨[], [], none⟩)).1 = .ok s ∧
      s.tokens = [("csrf", "T1")] :=
  (c3_redirect_success c3EnvOk (some ⟨[], [], none⟩) "T1" (by decide) (by decide)).1 (by decide)


/-! ## Claim C5: session-loss detection before submission -/

/-- Environment for the C5 counterexample: the scheduling fetch answers with
redirect status 303 (and so would the dashboard probe), yet the submission
POST is performed and succeeds. -/
def c5Env : PostEnv :=
  { scheduling := ⟨303, "See Other", [], .str "", []⟩
    dashboard := ⟨303, "See Other", [], .str "", []⟩
    submit := ⟨200, "OK", [], .str "ok", []⟩ }

/-- CLAIM C5 — counterexample. The claim says a token-refresh fetch
signalling session loss by *a redirect* together with a dashboard probe also
signalling loss makes `postVisitNote` fail with an Authentication error
carrying both statuses and never perform the submission POST. The code only
treats 403 and 302 as loss: with both responses at redirect status 303, no
probe fires, the stored session token is used, the POST is performed, and
the call succeeds. -/
theorem c5_counterexample :
    (wellskyPostVisitNote (fun _ => c5Env) smTok noteOk 0).outcome =
      .ok { success := true, visitId := "123", timestamp := 0
            request := some { carelog := "", shift := "123", unavailability := ""
                              date := "12/22/2025", tags := "38060", note := "ok"
                              show_with_billing := "on", show_with_payroll := "on"
                              csrfmiddlewaretoken := some "tok0" }
            response := some (.str "ok") } ∧
    (wellskyAttempt c5Env smTok noteOk 0).submitPosted = true ∧
    (wellskyAttempt c5Env smTok noteOk 0).dashboardProbed = false ∧
    (300 ≤ c5Env.scheduling.status ∧ c5Env.scheduling.status < 400) ∧
    c5Env.dashboard.status = 303 := by
  decide

/-- CLAIM C5 — amended: for a logged-in adapter, when the token-refresh page
fetch signals session loss by status 403 *or 302* (not an arbitrary
redirect) and the dashboard probe does likewise, `postVisitNote` re-raises —
after a single attempt — an Authentication-kind `EMRAdapterError` carrying
both observed statuses, the dashboard probe is performed, and the
note-submission POST is not. -/
theorem c5_session_loss_detection (env : Nat → PostEnv) (sm0 : Option Session)
    (note : VisitNote) (now : Int)
    (hauth : isAuthenticatedAt now sm0 = true)
    (hs : (env 0).scheduling.status = 403 ∨ (env 0).scheduling.status = 302)
    (hd : (env 0).dashboard.status = 403 ∨ (env 0).dashboard.status = 302) :
    wellskyPostVisitNote env sm0 note now =
      ⟨.threw (.adapterError
        { message := "Session expired or invalid. Please login again."
          type := .Authentication, emrType := .WellSky
          originalError := some (.statusPair (env 0).scheduling.status (env 0).dashboard.status) }),
        1, []⟩ ∧
    (wellskyAttempt (env 0) sm0 note now).submitPosted = false ∧
    (wellskyAttempt (env 0) sm0 note now).dashboardProbed = true := by
  have hA : wellskyAttempt (env 0) sm0 note now =
      { result := .error (.adapterError
          { message := "Session expired or invalid. Please login again."
            type := .Authentication, emrType := .WellSky
            originalError := some (.statusPair (env 0).scheduling.status (env 0).dashboard.status) })
        sessionAfter := updateCookies sm0 (env 0).scheduling.cookies
        dashboardProbed := true, submitPosted := false } := by
    unfold wellskyAttempt
    rcases hs with hs | hs <;> rcases hd with hd | hd <;> rw [hs, hd] <;> rfl
  refine ⟨?_, by rw [hA], by rw [hA]⟩
  have hop : (fun k => (wellskyAttempt (env k) (wellskyStates env sm0 note now k) note now).result) 0 =
      Except.error (.adapterError
        { message := "Session expired or invalid. Please login again."
          type := .Authentication, emrType := .WellSky
          originalError := some (.statusPair (env 0).scheduling.status (env 0).dashboard.status) }) := by
    show (wellskyAttempt (env 0) sm0 note now).result = _
    rw [hA]
  unfold wellskyPostVisitNote
  rw [if_neg (show ¬((!isAuthenticatedAt now sm0) = true) by rw [hauth]; simp)]
  exact execute_stops_when_pred_false baseRetryConfig _ defaultIsRetryable _ (by decide) hop rfl

/-- Environment for the C5 witness: scheduling 403, dashboard 302. -/
def c5WitnessEnv : PostEnv :=
  { scheduling := ⟨403, "Forbidden", [], .str "", []⟩
    dashboard := ⟨302, "Found", [], .str "", []⟩
    submit := ⟨200, "OK", [], .str "ok", []⟩ }

/-- Witness for C5 (amended): a 403 scheduling response with a 302 dashboard
response yields the Authentication error carrying `(403, 302)` in one
attempt, with no submission POST. -/
theorem c5_session_loss_detection_witness :
    wellskyPostVisitNote (fun _ => c5WitnessEnv) smTok noteOk 0 =
      ⟨.threw (.adapterError
        { message := "Session expired or invalid. Please login again."
          type := .Authentication, emrType := .WellSky
          originalError := some (.statusPair 403 302) }), 1, []⟩ ∧
    (wellskyAttempt c5WitnessEnv smTok noteOk 0).submitPosted = false :=
  ⟨(c5_session_loss_detection (fun _ => c5WitnessEnv) smTok noteOk 0
      rfl (Or.inl rfl) (Or.inr rfl)).1,
    (c5_session_loss_detection (fun _ => c5WitnessEnv) smTok noteOk 0
      rfl (Or.inl rfl) (Or.inr rfl)).2.1⟩

/-! ## Claim C8: transform is pure and tags-local -/

/-- Two canonical records that differ at most in `metadata.tags`: every
other record field is equal, and the `shift` their metadata exposes to
`transform` is the same. -/
def sameButTags (r q : VisitNote) : Prop :=
  r.visitId = q.visitId ∧ r.patientId = q.patientId ∧ r.caregiverId = q.caregiverId ∧
    r.visitDate = q.visitDate ∧ r.startTime = q.startTime ∧ r.endTime = q.endTime ∧
    r.note = q.note ∧ metaShift r.metadata = metaShift q.metadata

/-- CLAIM C8 — confirmed. `transform` is a pure Lean function, so
determinism is intrinsic (the first conjunct restates it); and for two
records differing only in `metadata.tags`, the outputs agree on every field
except possibly `tags` — including the two checkbox flags, which are
hard-set to `"on"` in both. -/
theorem c8_transform_tags_local (r q : VisitNote) (u v : WellSkyVisitNoteRequest)
    (h : sameButTags r q) (hu : transform r = some u) (hv : transform q = some v) :
    (∀ r1 r2 : VisitNote, r1 = r2 → transform r1 = transform r2) ∧
    u.carelog = v.carelog ∧ u.shift = v.shift ∧ u.unavailability = v.unavailability ∧
    u.date = v.date ∧ u.note = v.note ∧ u.csrfmiddlewaretoken = v.csrfmiddlewaretoken ∧
    u.show_with_billing = "on" ∧ u.show_with_payroll = "on" ∧
    v.show_with_billing = "on" ∧ v.show_with_payroll = "on" := by
  obtain ⟨h1, _, _, h4, _, _, h7, h8⟩ := h
  refine ⟨fun r1 r2 he => he ▸ rfl, ?_⟩
  cases hdr : r.visitDate with
  | none =>
    rw [transform, hdr] at hu
    exact absurd hu (by simp)
  | some d =>
    have hdq : q.visitDate = some d := h4 ▸ hdr
    rw [transform, hdr] at hu
    rw [transform, hdq] at hv
    simp only [Option.map_some', Option.some.injEq] at hu hv
    subst hu
    subst hv
    rw [h1, h7, h8]
    exact ⟨rfl, rfl, rfl, rfl, rfl, rfl, rfl, rfl, rfl, rfl⟩

/-- Record fixtures for the C8 witness: `c8NoteB` differs from `c8NoteA`
only in `metadata.tags`. -/
def c8NoteA : VisitNote := ⟨"123", "p1", "c1", some ⟨2025, 11, 22⟩, "", "", "ok", none⟩

def c8NoteB : VisitNote :=
  ⟨"123", "p1", "c1", some ⟨2025, 11, 22⟩, "", "", "ok", some ⟨none, some "t9"⟩⟩

/-- An all-empty request record, used as the `Option.getD` fallback in the
C8 witness (never reached, since both transforms are `some`). -/
def emptyReq : WellSkyVisitNoteRequest := ⟨"", "", "", "", "", "", "", "", none⟩

/-- Witness for C8 at the concrete records: all fields except `tags` agree
and the flags are hard-set to `"on"`. -/
theorem c8_transform_tags_local_witness :
    (∀ r1 r2 : VisitNote, r1 = r2 → transform r1 = transform r2) ∧
    (transform c8NoteA).isSome = true ∧ (transform c8NoteB).isSome = true ∧
    ((transform c8NoteA).getD emptyReq).shift = ((transform c8NoteB).getD emptyReq).shift ∧
    ((transform c8NoteA).getD emptyReq).tags = "38060" ∧
    ((transform c8NoteB).getD emptyReq).tags = "t9" := by
  have h := c8_transform_tags_local c8NoteA c8NoteB
    ((transform c8NoteA).getD emptyReq) ((transform c8NoteB).getD emptyReq)
    ⟨rfl, rfl, rfl, rfl, rfl, rfl, rfl, rfl⟩ (by decide) (by decide)
  exact ⟨h.1, by decide, by decide, h.2.2.1, by decide, by decide⟩


end EMRAdapter
